import Mathlib

/- Shallow embedding of tellapart/aurproxy/mirror.py: the traffic-mirror
reconciliation engine (MirrorUpdater), its loader (load_mirror_updater), the
launch-script writer (_update_command) and the process reaper (_kill_running).

External collaborators are modelled at their interface boundary:
* the endpoint source plugin: update takes the current endpoint list as an
  argument, and the loader treats the JSON source configuration as an
  uninterpreted nonempty string (json.loads and load_klass_plugin are external
  plugin loading);
* the jinja2 template renderer (_render): an arbitrary function argument of
  type RenderFn that may fail;
* the filesystem at the launch-script path: a World record holding the file
  contents (when the file exists) plus failure-injection flags for the three
  I/O operations the Python code performs there (reading the existing file,
  os.open of the file for writing, the write through the handle);
* the psutil process table: a list of Proc records, each with its command
  line and failure-injection flags for its cmdline() and kill() calls;
* gevent.spawn_later: update records the tick it schedules in the scheduled
  field of its result instead of spawning it.

A Python exception escaping a modelled function is an Except.error; functions
whose Python code cannot raise return plain values. -/

namespace Aurproxy

/-- mirror.py line 29: sentinel message of the fallback command. -/
def _FALLBACK_MSG : String := "No mirror source endpoints found."

/-- A single ASCII apostrophe character (code 39), used when assembling the
fallback command text. -/
def squote : String := ⟨[Char.ofNat 39]⟩

/-- mirror.py lines 30-34: the fallback command, after the .format call has
substituted _FALLBACK_MSG. In the Python literal the sequences backslash-quote
and backslash-n are doubly escaped, so the resulting string contains a literal
backslash followed by a quote, and a literal backslash followed by the letter
n, respectively. -/
def _FALLBACK_COMMAND : String :=
  "python -c \"exec(\\\"from gevent import sleep\\nwhile True: print " ++
    squote ++ _FALLBACK_MSG ++ squote ++ "; sleep(10)\\\")\""

/-- mirror.py line 35. -/
def _GOR_PATH : String := "/opt/go/bin/gor"

/-- mirror.py line 36. -/
def _MIRROR_COMMAND_PATH : String := "/etc/aurproxy/gor/mirror.sh"

/-- mirror.py lines 37-38. -/
def _MIRROR_COMMAND_TEMPLATE_PATH : String :=
  "./tellapart/aurproxy/templates/gor/mirror.sh.template"

/-- Python substring membership over character lists: sub occurs inside hay. -/
def listIn (sub : List Char) : List Char → Bool
  | [] => sub.isEmpty
  | c :: t => sub.isPrefixOf (c :: t) || listIn sub t

/-- Python `sub in hay` on strings. -/
def strIn (sub hay : String) : Bool := listIn sub.toList hay.toList

/-- Engine state (MirrorUpdater.__init__, mirror.py lines 69-91). The external
source object itself is not stored; the endpoint list it would report is passed
to update directly. -/
structure MirrorUpdater where
  ports : List Int
  max_qps : Int
  max_update_frequency : Option Int
  gor_path : String
  template_path : String
  command_path : String
  needs_update : Bool
  updating : Bool
deriving DecidableEq

/-- Python str.split(",") over a character list: cur accumulates the current
piece in reverse; every comma ends a piece, and empty pieces are kept. -/
def splitCommaAux : List Char → List Char → List String
  | cur, [] => [⟨cur.reverse⟩]
  | cur, c :: t =>
    if c = ',' then ⟨cur.reverse⟩ :: splitCommaAux [] t
    else splitCommaAux (c :: cur) t

/-- Python ports.split(","). -/
def splitComma (s : String) : List String := splitCommaAux [] s.toList

/-- Decimal digit run: accumulates a natural number, failing on the first
character that is not a digit. -/
def parseNatAux : List Char → Nat → Option Nat
  | [], acc => some acc
  | c :: t, acc =>
    if c.isDigit then parseNatAux t (acc * 10 + (c.toNat - 48)) else none

/-- Python int(p) on the characters of p: an optional sign followed by a
nonempty digit run (surrounding whitespace is not modelled; no claim feeds
int() whitespace). -/
def parseIntChars : List Char → Option Int
  | [] => none
  | '-' :: t =>
    if t.isEmpty then none else (parseNatAux t 0).map (fun n => -(n : Int))
  | '+' :: t =>
    if t.isEmpty then none else (parseNatAux t 0).map (fun n => (n : Int))
  | l => (parseNatAux l 0).map (fun n => (n : Int))

/-- Python int(p) for one port entry; raises ValueError on a bad literal. -/
def parsePort (p : String) : Except String Int :=
  match parseIntChars p.toList with
  | some n => Except.ok n
  | none => Except.error "invalid literal for int() with base 10"

/-- The list comprehension [int(p) for p in ports.split(",")] evaluated left
to right; the first bad entry raises. -/
def parsePortList : List String → Except String (List Int)
  | [] => Except.ok []
  | p :: rest =>
    match parsePort p with
    | Except.error e => Except.error e
    | Except.ok n =>
      match parsePortList rest with
      | Except.error e => Except.error e
      | Except.ok ns => Except.ok (n :: ns)

/-- mirror.py line 62: ports.split(",") fed entry by entry to int(_). -/
def parsePorts (ports : String) : Except String (List Int) :=
  parsePortList (splitComma ports)

/-- mirror.py lines 40-66. Python truthiness: `not s` for a string holds when
s = "", `not n` for an integer holds when n = 0, `not f` for the optional
update frequency is never consulted (the parameter is not validated). The
json.loads and load_klass_plugin steps are external plugin loading, modelled
as succeeding; the constructed engine carries the configuration fields that
__init__ (lines 81-91) assigns. -/
def load_mirror_updater (source_config : String) (ports : String) (max_qps : Int)
    (max_update_frequency : Option Int) : Except String MirrorUpdater :=
  if source_config = "" then Except.error "source_config required!"
  else if ports = "" then Except.error "ports required!"
  else if max_qps = 0 then Except.error "max_qps required!"
  else
    match parsePorts ports with
    | Except.error e => Except.error e
    | Except.ok ps =>
      Except.ok
        { ports := ps
          max_qps := max_qps
          max_update_frequency := max_update_frequency
          gor_path := _GOR_PATH
          template_path := _MIRROR_COMMAND_TEMPLATE_PATH
          command_path := _MIRROR_COMMAND_PATH
          needs_update := true
          updating := false }

/-- The filesystem as seen at the launch-script path (_MIRROR_COMMAND_PATH):
the file contents when a file exists there, plus failure-injection flags for
the I/O operations _update_command performs. -/
structure World where
  file : Option String
  readRaises : Bool
  openRaises : Bool
  writeRaises : Bool
deriving DecidableEq

/-- One entry of the psutil process table: its command line (argument list)
and failure-injection flags for cmdline() and kill(). -/
structure Proc where
  cmdline : List String
  cmdlineRaises : Bool
  killRaises : Bool
deriving DecidableEq

/-- One gevent.spawn_later call: the delay argument and the kill_running
value the scheduled update call will receive. -/
structure Sched where
  delay : Option Int
  kill_running : Bool
deriving DecidableEq

/-- An endpoint is treated as an uninterpreted value by the engine; its
rendered representation is all the template context carries. -/
abbrev Endpoint := String

/-- The template context built by _generate_context (mirror.py lines 193-205). -/
structure Context where
  gor_path : String
  ports : List Int
  endpoints : List Endpoint
  max_qps : Int
deriving DecidableEq

/-- The external jinja2 rendering step (_render, mirror.py lines 207-220):
given the template path and the context it produces a command string or
raises (missing template, render error). -/
abbrev RenderFn := String → Context → Except Unit String

/-- mirror.py lines 141-145. -/
def MirrorUpdater._should_update (u : MirrorUpdater) : Bool :=
  u.needs_update && !u.updating

/-- mirror.py lines 193-205. -/
def MirrorUpdater._generate_context (u : MirrorUpdater) (endpoints : List Endpoint) :
    Context :=
  { gor_path := u.gor_path
    ports := u.ports
    endpoints := endpoints
    max_qps := u.max_qps }

/-- mirror.py lines 176-191: empty endpoint set gives the fallback constant,
otherwise the external renderer is applied to the template path and context. -/
def MirrorUpdater._generate_command (u : MirrorUpdater) (endpoints : List Endpoint)
    (render : RenderFn) : Except Unit String :=
  if endpoints.isEmpty then Except.ok _FALLBACK_COMMAND
  else render u.template_path (u._generate_context endpoints)

/-- mirror.py lines 242-272. The os.path.isfile check and the read of the
existing file happen before the try block, so a failure there raises out of
the function; only the os.open/write portion is wrapped in try/except. The
World argument stands for the file at command_path. -/
def _update_command (command : String) (w : World) : Except Unit (Bool × World) :=
  let writeAttempt : Except Unit (Bool × World) :=
    if w.openRaises then Except.ok (false, w)
    else if w.writeRaises then Except.ok (false, { w with file := some "" })
    else Except.ok (true, { w with file := some command })
  match w.file with
  | some contents =>
    if w.readRaises then Except.error ()
    else if contents = command then Except.ok (true, w)
    else writeAttempt
  | none => writeAttempt

/-- mirror.py lines 286-288: the joined command line matched against the gor
path and the fallback sentinel. -/
def matchesSignature (gor_path : String) (p : Proc) : Bool :=
  let cmd_line := String.intercalate " " p.cmdline
  strIn gor_path cmd_line || strIn _FALLBACK_MSG cmd_line

/-- The for loop of _kill_running (mirror.py lines 285-292): the whole loop
sits inside one try block, so the first raising cmdline() or kill() call
aborts the sweep; the except handler sets success to false. Returns the
success flag and the command lines of the processes actually killed. -/
def killLoop (gor_path : String) : List Proc → Bool × List (List String)
  | [] => (true, [])
  | p :: rest =>
    if p.cmdlineRaises then (false, [])
    else if matchesSignature gor_path p then
      if p.killRaises then (false, [])
      else
        let r := killLoop gor_path rest
        (r.1, p.cmdline :: r.2)
    else killLoop gor_path rest

/-- mirror.py lines 274-298. -/
def MirrorUpdater._kill_running (u : MirrorUpdater) (procs : List Proc) :
    Bool × List (List String) :=
  killLoop u.gor_path procs

/-- mirror.py lines 222-240: success is initialised to False and assigned only
inside the `if updated and kill_running` branch; the function returns
`updated and success`. Returns (that boolean, the filesystem after, the
command lines killed). An error from _update_command propagates. -/
def MirrorUpdater._update (u : MirrorUpdater) (command : String) (kill_running : Bool)
    (w : World) (procs : List Proc) : Except Unit (Bool × World × List (List String)) :=
  match _update_command command w with
  | Except.error e => Except.error e
  | Except.ok (updated, w1) =>
    if updated && kill_running then
      let r := u._kill_running procs
      Except.ok (updated && r.1, w1, r.2)
    else
      Except.ok (updated && false, w1, [])

/-- Outcome of the try/except part of update (mirror.py lines 157-171):
engine flags, filesystem, killed processes, and whether a command was
generated during the attempt. -/
structure TryOutcome where
  st : MirrorUpdater
  w : World
  killed : List (List String)
  generated : Bool
deriving DecidableEq

/-- The try/except body of update (mirror.py lines 157-171): the guard, the
flag flips, command generation, the apply step, and the except handler that
restores needs_update on any raised exception. -/
def MirrorUpdater.updateTry (u : MirrorUpdater) (kill_running : Bool)
    (endpoints : List Endpoint) (render : RenderFn) (w : World) (procs : List Proc) :
    TryOutcome :=
  if u._should_update then
    let u1 : MirrorUpdater := { u with needs_update := false, updating := true }
    match u1._generate_command endpoints render with
    | Except.error _ =>
      { st := { u1 with needs_update := true }, w := w, killed := [], generated := false }
    | Except.ok command =>
      match u1._update command kill_running w procs with
      | Except.error _ =>
        { st := { u1 with needs_update := true }, w := w, killed := [], generated := true }
      | Except.ok (success, w1, killed) =>
        if success then { st := u1, w := w1, killed := killed, generated := true }
        else { st := { u1 with needs_update := true }, w := w1, killed := killed,
               generated := true }
  else { st := u, w := w, killed := [], generated := false }

/-- The full result of one update call: engine state and filesystem after the
call, command lines of killed processes, whether a command was generated, and
the spawn_later calls issued. -/
structure UpdateResult where
  state : MirrorUpdater
  world : World
  killed : List (List String)
  generated : Bool
  scheduled : List Sched
deriving DecidableEq

/-- mirror.py lines 147-174: the try/except body followed by the finally
block, which clears updating and issues one spawn_later of self.update with
the delay self._max_update_frequency; update is called there without
arguments, so the scheduled call receives the default kill_running=True. -/
def MirrorUpdater.update (u : MirrorUpdater) (kill_running : Bool)
    (endpoints : List Endpoint) (render : RenderFn) (w : World) (procs : List Proc) :
    UpdateResult :=
  let t := u.updateTry kill_running endpoints render w procs
  { state := { t.st with updating := false }
    world := t.w
    killed := t.killed
    generated := t.generated
    scheduled := [{ delay := u.max_update_frequency, kill_running := true }] }

/-- mirror.py lines 93-98: set_up starts the source (external) and performs
one synchronous update with kill_running=False. -/
def MirrorUpdater.set_up (u : MirrorUpdater) (endpoints : List Endpoint)
    (render : RenderFn) (w : World) (procs : List Proc) : UpdateResult :=
  u.update false endpoints render w procs

/-- mirror.py lines 100-107: start starts the source (external) and schedules
the first tick; update is passed without arguments, so that tick runs with
the default kill_running=True. -/
def MirrorUpdater.start (u : MirrorUpdater) : List Sched :=
  [{ delay := u.max_update_frequency, kill_running := true }]

/-- The state load_mirror_updater builds for ports "8080,8081", max_qps 100
and a 10 second update frequency. -/
def baseUpdater : MirrorUpdater :=
  { ports := [8080, 8081]
    max_qps := 100
    max_update_frequency := some 10
    gor_path := _GOR_PATH
    template_path := _MIRROR_COMMAND_TEMPLATE_PATH
    command_path := _MIRROR_COMMAND_PATH
    needs_update := true
    updating := false }

/-- A renderer that always succeeds with the command "CMD". -/
def okRender : RenderFn := fun _ _ => Except.ok "CMD"

/-- No file at the launch-script path; all I/O succeeds. -/
def cleanWorld : World :=
  { file := none, readRaises := false, openRaises := false, writeRaises := false }

/-- The launch script already holds "CMD"; all I/O succeeds. -/
def unchangedWorld : World :=
  { file := some "CMD", readRaises := false, openRaises := false, writeRaises := false }

/-- A file exists at the path but reading it raises an I/O error. -/
def readFailWorld : World :=
  { file := some "OLD", readRaises := true, openRaises := false, writeRaises := false }

/-- No file at the path and os.open for writing raises an I/O error. -/
def openFailWorld : World :=
  { file := none, readRaises := false, openRaises := true, writeRaises := false }

/-- A process whose command line contains the gor binary path. -/
def gorProc : Proc :=
  { cmdline := [_GOR_PATH, "--input-raw"], cmdlineRaises := false, killRaises := false }

/-- A process whose command line matches neither signature. -/
def idleProc : Proc :=
  { cmdline := ["sleep", "100"], cmdlineRaises := false, killRaises := false }

/-- baseUpdater mid-reconciliation: updating is true. -/
def busyUpdater : MirrorUpdater :=
  { baseUpdater with needs_update := false, updating := true }

/-- baseUpdater with nothing to do: needs_update is false. -/
def skipUpdater : MirrorUpdater :=
  { baseUpdater with needs_update := false }

/-- C1 evidence: in a call to update with kill_running = false in which
should_update holds and both command generation and the launch-script write
succeed, the write does happen (the file now holds the generated command),
yet the apply step reports failure — _update returns `updated and success`
with success never assigned — so update restores needs_update to true even
though nothing failed. This contradicts the documented contract of _update
("Boolean indicating whether update was successful"). -/
theorem c1_successful_write_reported_failed :
    (baseUpdater.update false ["ep1"] okRender cleanWorld []).world.file = some "CMD" ∧
    (baseUpdater.update false ["ep1"] okRender cleanWorld []).state.needs_update = true :=
  ⟨rfl, rfl⟩

/-- C4: for every engine state, kill_running flag, endpoint list, renderer,
filesystem and process table, update returns normally (it is a total
function: every raise inside the attempt is caught), the updating flag is
false after the call, and exactly one next tick is scheduled with delay
max_update_frequency. -/
theorem c4_update_clears_updating_and_reschedules (u : MirrorUpdater)
    (kill_running : Bool) (endpoints : List Endpoint) (render : RenderFn)
    (w : World) (procs : List Proc) :
    (u.update kill_running endpoints render w procs).state.updating = false ∧
    (u.update kill_running endpoints render w procs).scheduled =
      [{ delay := u.max_update_frequency, kill_running := true }] :=
  ⟨rfl, rfl⟩

/-- C7: whenever the endpoint source reports zero endpoints, _generate_command
returns exactly the fallback constant, for every engine state (hence every
ports, max_qps and template path) and every renderer. -/
theorem c7_empty_endpoints_give_fallback (u : MirrorUpdater) (render : RenderFn) :
    u._generate_command [] render = Except.ok _FALLBACK_COMMAND := rfl

/-- C10: every update call, whatever its own kill_running argument, schedules
exactly one future tick whose kill_running takes the default value true; and
set_up is exactly an update call with kill_running = false, so its scheduled
successor tick also runs with kill_running = true. -/
theorem c10_rescheduled_tick_defaults_kill_running (u : MirrorUpdater)
    (kill_running : Bool) (endpoints : List Endpoint) (render : RenderFn)
    (w : World) (procs : List Proc) :
    (u.update kill_running endpoints render w procs).scheduled =
      [{ delay := u.max_update_frequency, kill_running := true }] ∧
    u.set_up endpoints render w procs = u.update false endpoints render w procs ∧
    (u.set_up endpoints render w procs).scheduled =
      [{ delay := u.max_update_frequency, kill_running := true }] :=
  ⟨rfl, rfl, rfl⟩

/-- C2 counterexample: with kill_running = true, an attempt whose generated
command equals the existing file contents performs no write, yet the process
reaper IS invoked and the matching process receives a termination signal:
_update_command reports updated = true for the unchanged file, and _update
runs _kill_running whenever updated and kill_running hold. -/
theorem c2_unchanged_write_still_reaps_cex :
    (baseUpdater.update true ["ep1"] okRender unchangedWorld [gorProc]).world =
      unchangedWorld ∧
    (baseUpdater.update true ["ep1"] okRender unchangedWorld [gorProc]).killed =
      [[_GOR_PATH, "--input-raw"]] :=
  ⟨rfl, rfl⟩

/-- C2 amended: when the file at the launch-script path already equals the
newly generated command, the write is a pure no-op (the filesystem is
unchanged), but with kill_running = true the process reaper is still invoked:
the killed processes are exactly those of a _kill_running sweep. -/
theorem c2_unchanged_write_noop_but_reaper_runs (u : MirrorUpdater)
    (endpoints : List Endpoint) (render : RenderFn) (w : World) (procs : List Proc)
    (command : String)
    (hs : u._should_update = true)
    (hg : u._generate_command endpoints render = Except.ok command)
    (hf : w.file = some command) (hr : w.readRaises = false) :
    (u.update true endpoints render w procs).world = w ∧
    (u.update true endpoints render w procs).killed = (u._kill_running procs).2 := by
  have hg1 : ({ u with needs_update := false, updating := true } :
      MirrorUpdater)._generate_command endpoints render = Except.ok command := hg
  have hk1 : ({ u with needs_update := false, updating := true } :
      MirrorUpdater)._kill_running procs = u._kill_running procs := rfl
  simp only [MirrorUpdater.update, MirrorUpdater.updateTry, hs, if_true,
    MirrorUpdater._update, hg1, _update_command, hf, hr]
  simp only [Bool.false_eq_true, if_false, if_pos rfl, Bool.true_and, hk1]
  cases hsucc : (u._kill_running procs).1 <;> simp [hsucc]

/-- C2 witness for the amended theorem, at a concrete unchanged file and one
matching process. -/
theorem c2_unchanged_write_noop_but_reaper_runs_witness :
    (baseUpdater.update true ["ep1"] okRender unchangedWorld [gorProc, idleProc]).world =
      unchangedWorld ∧
    (baseUpdater.update true ["ep1"] okRender unchangedWorld [gorProc, idleProc]).killed =
      (baseUpdater._kill_running [gorProc, idleProc]).2 :=
  c2_unchanged_write_noop_but_reaper_runs baseUpdater ["ep1"] okRender unchangedWorld
    [gorProc, idleProc] "CMD" rfl rfl rfl rfl

/-- C3 counterexample: when a file exists at the launch-script path and
reading it fails with an I/O error, _update_command raises past its boundary
(the isfile check and the read sit outside the try block); it does not return
false. -/
theorem c3_read_failure_raises_cex :
    _update_command "NEW" readFailWorld = Except.error () := rfl

/-- C3 amended: _update_command never raises as long as the path holds no
file or the existing file is read successfully — within that scope every
write-phase I/O failure is caught and reported by returning false — but an
I/O failure while reading an existing file at the path propagates out of
_update_command (it is caught only by the update driver above). -/
theorem c3_write_failures_caught (command : String) (w : World)
    (h : w.file = none ∨ w.readRaises = false) :
    ∃ updated w1, _update_command command w = Except.ok (updated, w1) ∧
      ((w.openRaises = true ∨ w.writeRaises = true) → w.file ≠ some command →
        updated = false) := by
  unfold _update_command
  cases hfile : w.file with
  | none =>
    cases ho : w.openRaises with
    | true => exact ⟨false, w, by simp [ho], fun _ _ => rfl⟩
    | false =>
      cases hw : w.writeRaises with
      | true => exact ⟨false, { w with file := some "" }, by simp [ho, hw], fun _ _ => rfl⟩
      | false => exact ⟨true, { w with file := some command }, by simp [ho, hw],
          by simp [ho, hw]⟩
  | some contents =>
    have hr : w.readRaises = false := by
      cases h with
      | inl h1 => rw [hfile] at h1; cases h1
      | inr h2 => exact h2
    by_cases hc : contents = command
    · exact ⟨true, w, by simp [hr, hc], fun _ hne => absurd (congrArg some hc) hne⟩
    · cases ho : w.openRaises with
      | true => exact ⟨false, w, by simp [hr, hc, ho], fun _ _ => rfl⟩
      | false =>
        cases hw : w.writeRaises with
        | true => exact ⟨false, { w with file := some "" }, by simp [hr, hc, ho, hw],
            fun _ _ => rfl⟩
        | false => exact ⟨true, { w with file := some command },
            by simp [hr, hc, ho, hw], by simp [ho, hw]⟩

/-- C3 witness for the amended theorem: no file at the path, os.open raises,
and false is returned instead of an exception. -/
theorem c3_write_failures_caught_witness :
    ∃ updated w1, _update_command "NEW" openFailWorld = Except.ok (updated, w1) ∧
      ((openFailWorld.openRaises = true ∨ openFailWorld.writeRaises = true) →
        openFailWorld.file ≠ some "NEW" → updated = false) :=
  c3_write_failures_caught "NEW" openFailWorld (Or.inl rfl)

/-- C5 counterexample: a negative max_qps is accepted: the check is Python
truthiness (`not max_qps`), which rejects only zero, so load_mirror_updater
constructs an engine with max_qps = -1 and raises nothing. -/
theorem c5_negative_max_qps_accepted_cex :
    load_mirror_updater "sc" "8080,8081" (-1) (some 10) =
      Except.ok
        { ports := [8080, 8081]
          max_qps := -1
          max_update_frequency := some 10
          gor_path := _GOR_PATH
          template_path := _MIRROR_COMMAND_TEMPLATE_PATH
          command_path := _MIRROR_COMMAND_PATH
          needs_update := true
          updating := false } := by
  rfl

/-- C5 amended: the construction-time max-QPS check rejects exactly the falsy
value zero: with a nonempty source descriptor and a parsable nonempty port
list, max_qps = 0 raises the configuration error, while every nonzero
max_qps — negative values included — passes validation and construction
succeeds. -/
theorem c5_max_qps_check_rejects_only_zero (source_config ports : String)
    (max_qps : Int) (freq : Option Int) (ps : List Int)
    (h1 : source_config ≠ "") (h2 : ports ≠ "")
    (hp : parsePorts ports = Except.ok ps) :
    (max_qps = 0 →
      load_mirror_updater source_config ports max_qps freq =
        Except.error "max_qps required!") ∧
    (max_qps ≠ 0 →
      load_mirror_updater source_config ports max_qps freq =
        Except.ok
          { ports := ps
            max_qps := max_qps
            max_update_frequency := freq
            gor_path := _GOR_PATH
            template_path := _MIRROR_COMMAND_TEMPLATE_PATH
            command_path := _MIRROR_COMMAND_PATH
            needs_update := true
            updating := false }) := by
  constructor
  · intro h
    simp [load_mirror_updater, h1, h2, h]
  · intro h
    simp [load_mirror_updater, h1, h2, h, hp]

/-- C5 witness for the amended theorem at max_qps = 0 and max_qps = -1. -/
theorem c5_max_qps_check_rejects_only_zero_witness :
    load_mirror_updater "sc" "8080" 0 (some 10) = Except.error "max_qps required!" ∧
    load_mirror_updater "sc" "8080" (-7) (some 10) =
      Except.ok
        { ports := [8080]
          max_qps := -7
          max_update_frequency := some 10
          gor_path := _GOR_PATH
          template_path := _MIRROR_COMMAND_TEMPLATE_PATH
          command_path := _MIRROR_COMMAND_PATH
          needs_update := true
          updating := false } :=
  ⟨(c5_max_qps_check_rejects_only_zero "sc" "8080" 0 (some 10) [8080]
      (by decide) (by decide) rfl).1 rfl,
   (c5_max_qps_check_rejects_only_zero "sc" "8080" (-7) (some 10) [8080]
      (by decide) (by decide) rfl).2 (by decide)⟩

/-- C6 counterexample: with the update-frequency parameter missing (None),
construction succeeds but the engine retains the missing value: no default
number of seconds is substituted anywhere in this module. -/
theorem c6_none_frequency_retained_cex :
    load_mirror_updater "sc" "8080" 100 none =
      Except.ok
        { ports := [8080]
          max_qps := 100
          max_update_frequency := none
          gor_path := _GOR_PATH
          template_path := _MIRROR_COMMAND_TEMPLATE_PATH
          command_path := _MIRROR_COMMAND_PATH
          needs_update := true
          updating := false } := by
  rfl

/-- C6 amended: when the update-frequency parameter is None, construction
succeeds without error (the parameter is never validated), and the engine
retains None as its max_update_frequency rather than being configured with a
default number of seconds; the tick that update or start schedules then
carries that missing delay. -/
theorem c6_none_frequency_accepted_and_retained (source_config ports : String)
    (max_qps : Int) (ps : List Int)
    (h1 : source_config ≠ "") (h2 : ports ≠ "") (h3 : max_qps ≠ 0)
    (hp : parsePorts ports = Except.ok ps) :
    ∃ u, load_mirror_updater source_config ports max_qps none = Except.ok u ∧
      u.max_update_frequency = none ∧
      u.start = [{ delay := none, kill_running := true }] := by
  refine ⟨{ ports := ps
            max_qps := max_qps
            max_update_frequency := none
            gor_path := _GOR_PATH
            template_path := _MIRROR_COMMAND_TEMPLATE_PATH
            command_path := _MIRROR_COMMAND_PATH
            needs_update := true
            updating := false }, ?_, rfl, rfl⟩
  simp [load_mirror_updater, h1, h2, h3, hp]

/-- C6 witness for the amended theorem at a concrete configuration. -/
theorem c6_none_frequency_accepted_and_retained_witness :
    ∃ u, load_mirror_updater "sc" "9090" 50 none = Except.ok u ∧
      u.max_update_frequency = none ∧
      u.start = [{ delay := none, kill_running := true }] :=
  c6_none_frequency_accepted_and_retained "sc" "9090" 50 [9090]
    (by decide) (by decide) (by decide) rfl

/-- C9 counterexample: an update call entered with updating = true does not
leave the engine state unchanged: the finally block unconditionally clears
the updating flag, so it is false after the call. -/
theorem c9_skip_clears_updating_cex :
    busyUpdater.updating = true ∧
    (busyUpdater.update true [] okRender cleanWorld []).state.updating = false ∧
    (busyUpdater.update true [] okRender cleanWorld []).state ≠ busyUpdater :=
  ⟨rfl, rfl, by decide⟩

/-- C9 amended: when needs_update is false or updating is true at entry, the
attempt skips all work — no command is generated, the filesystem is
untouched, no process is signaled, and needs_update, ports, max_qps and the
paths keep their values — but updating is unconditionally false after the
call (the finally block clears it even when it was true at entry), and the
next tick is still scheduled. -/
theorem c9_skip_leaves_state_except_updating (u : MirrorUpdater)
    (kill_running : Bool) (endpoints : List Endpoint) (render : RenderFn)
    (w : World) (procs : List Proc)
    (h : u.needs_update = false ∨ u.updating = true) :
    (u.update kill_running endpoints render w procs).generated = false ∧
    (u.update kill_running endpoints render w procs).world = w ∧
    (u.update kill_running endpoints render w procs).killed = [] ∧
    (u.update kill_running endpoints render w procs).state =
      { u with updating := false } ∧
    (u.update kill_running endpoints render w procs).scheduled =
      [{ delay := u.max_update_frequency, kill_running := true }] := by
  have hsu : u._should_update = false := by
    cases h with
    | inl h1 => simp [MirrorUpdater._should_update, h1]
    | inr h2 => simp [MirrorUpdater._should_update, h2]
  simp [MirrorUpdater.update, MirrorUpdater.updateTry, hsu]

/-- C9 witness for the amended theorem, at a dirty-free engine state. -/
theorem c9_skip_leaves_state_except_updating_witness :
    (skipUpdater.update true ["ep1"] okRender cleanWorld [gorProc]).generated = false ∧
    (skipUpdater.update true ["ep1"] okRender cleanWorld [gorProc]).world = cleanWorld ∧
    (skipUpdater.update true ["ep1"] okRender cleanWorld [gorProc]).killed = [] ∧
    (skipUpdater.update true ["ep1"] okRender cleanWorld [gorProc]).state =
      { skipUpdater with updating := false } ∧
    (skipUpdater.update true ["ep1"] okRender cleanWorld [gorProc]).scheduled =
      [{ delay := skipUpdater.max_update_frequency, kill_running := true }] :=
  c9_skip_leaves_state_except_updating skipUpdater true ["ep1"] okRender cleanWorld
    [gorProc] (Or.inl rfl)

/-- The sweep loop succeeds exactly when no per-process failure is reached:
every process retrieves its command line without raising, and every matching
process is killed without raising. -/
theorem killLoop_success_iff (g : String) (procs : List Proc) :
    (killLoop g procs).1 = true ↔
      ∀ p ∈ procs, p.cmdlineRaises = false ∧
        (matchesSignature g p = true → p.killRaises = false) := by
  induction procs with
  | nil => simp [killLoop]
  | cons p rest ih =>
    cases hc : p.cmdlineRaises with
    | true => simp [killLoop, hc]
    | false =>
      cases hm : matchesSignature g p with
      | true =>
        cases hk : p.killRaises with
        | true => simp [killLoop, hc, hm, hk]
        | false => simp [killLoop, hc, hm, hk, ih]
      | false => simp [killLoop, hc, hm, ih]

/-- On a sweep with no per-process failures, the loop reports success and the
killed processes are exactly the matching ones, in order. -/
theorem killLoop_all_clean (g : String) (procs : List Proc)
    (h : ∀ p ∈ procs, p.cmdlineRaises = false ∧ p.killRaises = false) :
    killLoop g procs =
      (true, (procs.filter (fun p => matchesSignature g p)).map Proc.cmdline) := by
  induction procs with
  | nil => simp [killLoop]
  | cons p rest ih =>
    have hp := h p (List.mem_cons_self p rest)
    have hrest : ∀ q ∈ rest, q.cmdlineRaises = false ∧ q.killRaises = false :=
      fun q hq => h q (List.mem_cons_of_mem p hq)
    cases hm : matchesSignature g p with
    | true => simp [killLoop, hp.1, hp.2, hm, ih hrest, List.filter_cons]
    | false => simp [killLoop, hp.1, hm, ih hrest, List.filter_cons]

/-- C8: the sweep returns true exactly when no internal failure occurred
during it, regardless of whether anything was killed; and on a failure-free
sweep a process is signaled if and only if its command line, joined into one
string, contains the gor binary path or the fallback sentinel substring. -/
theorem c8_reaper_matches_and_reports (u : MirrorUpdater) (procs : List Proc) :
    ((u._kill_running procs).1 = true ↔
      ∀ p ∈ procs, p.cmdlineRaises = false ∧
        (matchesSignature u.gor_path p = true → p.killRaises = false)) ∧
    ((∀ p ∈ procs, p.cmdlineRaises = false ∧ p.killRaises = false) →
      (u._kill_running procs).2 =
        (procs.filter (fun p => matchesSignature u.gor_path p)).map Proc.cmdline) := by
  constructor
  · exact killLoop_success_iff u.gor_path procs
  · intro h
    have := killLoop_all_clean u.gor_path procs h
    simp [MirrorUpdater._kill_running, this]

/-- C8 witness: a sweep over one matching and one non-matching process
completes successfully and signals exactly the matching one. -/
theorem c8_reaper_matches_and_reports_witness :
    (baseUpdater._kill_running [gorProc, idleProc]).1 = true ∧
    (baseUpdater._kill_running [gorProc, idleProc]).2 =
      ([gorProc, idleProc].filter
        (fun p => matchesSignature baseUpdater.gor_path p)).map Proc.cmdline := by
  have h := c8_reaper_matches_and_reports baseUpdater [gorProc, idleProc]
  exact ⟨h.1.mpr (by decide), h.2 (by decide)⟩

end Aurproxy
